import Mathlib

/-!
Verification of the `m2g_image` pipeline (CSV → mols2grid HTML → Playwright
screenshot).  The Python sources are shallowly embedded:

* `src/m2g_image/config.py`   — `GridConfig.from_cli_and_config`, `_coerce_value`;
* `src/m2g_image/converter.py` — `generate_grid_image` (kwargs construction),
  `generate_grid_images` (pagination), `grid_to_image` (HTML serialization and
  temp-file cleanup);
* `src/m2g_image/screenshot.py` — `capture_element_screenshot`;
* `src/m2g_image/app.py`      — `resolve_param` and the `main` command's
  parameter resolution, validation flow and batch loop.

Python runtime values flowing through dicts are modelled by the inductive
`PyVal`; a Python `dict` is an association list with first-match lookup
(Python dict keys are unique, so first-match lookup agrees with dict lookup).
`PyVal.vNone` is Python `None`: `dict.get(k)` followed by an `is not None`
test cannot distinguish an absent key from a key stored with value `None`,
which `dictGet` reflects by collapsing a stored `vNone` to `none`.
-/

/-- A Python runtime value, restricted to the shapes that actually flow
through this program's config/kwargs dicts.  `vMolDrawOptions` models an
RDKit `MolDrawOptions` object by the only attribute the program touches
(`clearBackground`). -/
inductive PyVal where
  | vNone : PyVal
  | vStr (s : String) : PyVal
  | vInt (n : Int) : PyVal
  | vBool (b : Bool) : PyVal
  | vPath (p : String) : PyVal
  | vStrList (l : List String) : PyVal
  | vMolDrawOptions (clearBackground : Bool) : PyVal
deriving DecidableEq, Repr

/-- A Python `dict` with string keys, as an association list. -/
abbrev Dict := List (String × PyVal)

/-- Raw key lookup (Python `k in d` / `d[k]`), first match wins. -/
def lookupRaw : Dict → String → Option PyVal
  | [], _ => none
  | (k, v) :: rest, key => if k = key then some v else lookupRaw rest key

/-- Python `d.get(k)` as observed through an `is not None` test: an absent
key and a key stored with value `None` both yield `none`. -/
def dictGet (d : Dict) (k : String) : Option PyVal :=
  match lookupRaw d k with
  | some PyVal.vNone => none
  | some v => some v
  | none => none

/-- Python truthiness (`if x:`) for the values modelled here. -/
def pyTruthy : PyVal → Bool
  | PyVal.vNone => false
  | PyVal.vStr s => !(s = "")
  | PyVal.vInt n => !(n = 0)
  | PyVal.vBool b => b
  | PyVal.vPath p => !(p = "")
  | PyVal.vStrList l => !l.isEmpty
  | PyVal.vMolDrawOptions _ => true

namespace GridConfig

/-- `config.py` `_PATH_FIELDS`: fields coerced from `str` to `Path`. -/
def _PATH_FIELDS : List String := ["output_image", "output_html", "output_dir"]

/-- `config.py` `_coerce_value`: strings destined for path fields become
paths; everything else passes through unchanged. -/
def _coerce_value (name : String) (v : PyVal) : PyVal :=
  if name ∈ _PATH_FIELDS then
    match v with
    | PyVal.vStr s => PyVal.vPath s
    | _ => v
  else v

/-- The `GridConfig` dataclass field names, in declaration order
(`fields(cls)` iterates in this order). -/
def fieldNames : List String :=
  ["output_image", "output_html", "output_dir",
   "smiles_col", "n_cols", "cell_width", "cell_height", "fontsize", "subset",
   "sort_by", "remove_hs", "use_coords", "coord_gen",
   "border", "gap", "fontfamily", "text_align",
   "n_items_per_page", "transparent"]

/-- The dataclass defaults declared in `config.py`. -/
def fieldDefault (n : String) : PyVal :=
  if n = "output_image" then PyVal.vPath "result.png"
  else if n = "smiles_col" then PyVal.vStr "smiles"
  else if n = "n_cols" then PyVal.vInt 5
  else if n = "cell_width" then PyVal.vInt 150
  else if n = "cell_height" then PyVal.vInt 150
  else if n = "fontsize" then PyVal.vInt 12
  else if n = "transparent" then PyVal.vBool false
  else PyVal.vNone

/-- The loop body of `GridConfig.from_cli_and_config` for one field `n`:
a non-`None` CLI value is stored (coerced), else a non-`None` config-file
value is stored (coerced), else nothing is stored and the dataclass default
will apply. -/
def mergeStep (cli cfg : Dict) (merged : Dict) (n : String) : Dict :=
  match dictGet cli n with
  | some v => merged ++ [(n, _coerce_value n v)]
  | none =>
    match dictGet cfg n with
    | some v => merged ++ [(n, _coerce_value n v)]
    | none => merged

/-- `GridConfig.from_cli_and_config`: fold the per-field merge over the
dataclass fields, producing the `merged` dict passed to `cls(**merged)`. -/
def from_cli_and_config (cli cfg : Dict) : Dict :=
  fieldNames.foldl (mergeStep cli cfg) []

/-- Reading field `n` of the constructed dataclass instance
`cls(**merged)`: the merged value if the key was stored, else the
dataclass default. -/
def configField (cli cfg : Dict) (n : String) : PyVal :=
  (lookupRaw (from_cli_and_config cli cfg) n).getD (fieldDefault n)

end GridConfig

namespace app

/-- `app.py` `resolve_param`: CLI beats config file beats default, where
`none` models Python `None` (the "not provided" marker). -/
def resolve_param {T : Type} (cliVal configVal : Option T) (dflt : T) : T :=
  match cliVal with
  | some v => v
  | none =>
    match configVal with
    | some v => v
    | none => dflt

end app

section DictLemmas

theorem lookupRaw_append_right {a b : Dict} {k : String}
    (h : lookupRaw a k = none) : lookupRaw (a ++ b) k = lookupRaw b k := by
  induction a with
  | nil => rfl
  | cons p rest ih =>
    obtain ⟨pk, pv⟩ := p
    by_cases hk : pk = k
    · simp [lookupRaw, hk] at h
    · simp only [lookupRaw, List.cons_append, if_neg hk] at h ⊢
      exact ih h

theorem lookupRaw_append_left {a : Dict} {k : String} {v : PyVal}
    (h : lookupRaw a k = some v) (b : Dict) :
    lookupRaw (a ++ b) k = some v := by
  induction a with
  | nil => simp [lookupRaw] at h
  | cons p rest ih =>
    obtain ⟨pk, pv⟩ := p
    by_cases hk : pk = k
    · simp only [lookupRaw, if_pos hk] at h
      simp [lookupRaw, hk, h]
    · simp only [lookupRaw, List.cons_append, if_neg hk] at h ⊢
      exact ih h

theorem lookupRaw_singleton_ne {k n : String} {v : PyVal} (h : n ≠ k) :
    lookupRaw [(n, v)] k = none := by
  simp [lookupRaw, h]

end DictLemmas

namespace GridConfig

/-- The value `mergeStep` would store for field `n`, as an `Option`. -/
def stepVal (cli cfg : Dict) (n : String) : Option PyVal :=
  match dictGet cli n with
  | some v => some (_coerce_value n v)
  | none =>
    match dictGet cfg n with
    | some v => some (_coerce_value n v)
    | none => none

theorem lookupRaw_mergeStep_self {cli cfg : Dict} {acc : Dict} {n : String}
    (hacc : lookupRaw acc n = none) :
    lookupRaw (mergeStep cli cfg acc n) n = stepVal cli cfg n := by
  unfold mergeStep stepVal
  cases hc : dictGet cli n with
  | some v =>
    rw [lookupRaw_append_right hacc]
    simp [lookupRaw]
  | none =>
    cases hg : dictGet cfg n with
    | some v =>
      rw [lookupRaw_append_right hacc]
      simp [lookupRaw]
    | none => exact hacc

theorem lookupRaw_mergeStep_ne {cli cfg : Dict} {acc : Dict} {n k : String}
    (h : n ≠ k) :
    lookupRaw (mergeStep cli cfg acc n) k = lookupRaw acc k := by
  unfold mergeStep
  cases hc : dictGet cli n with
  | some v =>
    cases hl : lookupRaw acc k with
    | some w => rw [lookupRaw_append_left hl]
    | none => rw [lookupRaw_append_right hl, lookupRaw_singleton_ne h]
  | none =>
    cases hg : dictGet cfg n with
    | some v =>
      cases hl : lookupRaw acc k with
      | some w => rw [lookupRaw_append_left hl]
      | none => rw [lookupRaw_append_right hl, lookupRaw_singleton_ne h]
    | none => rfl

/-- Fields not in the remaining name list are untouched by the fold. -/
theorem foldl_mergeStep_stable (cli cfg : Dict) :
    ∀ (L : List String) (acc : Dict) (k : String), k ∉ L →
      lookupRaw (L.foldl (mergeStep cli cfg) acc) k = lookupRaw acc k := by
  intro L
  induction L with
  | nil => intro acc k _; rfl
  | cons n rest ih =>
    intro acc k hk
    have hn : n ≠ k := fun h => hk (h ▸ List.mem_cons_self n rest)
    have hrest : k ∉ rest := fun h => hk (List.mem_cons_of_mem n h)
    rw [List.foldl_cons, ih _ _ hrest, lookupRaw_mergeStep_ne hn]

/-- The key lemma for the merge: for every field name in the (duplicate-free)
field list, the folded merge dict stores exactly the per-field step value. -/
theorem foldl_mergeStep_extract (cli cfg : Dict) :
    ∀ (L : List String) (acc : Dict) (k : String), k ∈ L → L.Nodup →
      lookupRaw acc k = none →
      lookupRaw (L.foldl (mergeStep cli cfg) acc) k = stepVal cli cfg k := by
  intro L
  induction L with
  | nil => intro acc k hk; exact absurd hk (List.not_mem_nil k)
  | cons n rest ih =>
    intro acc k hk hnd hacc
    rw [List.foldl_cons]
    rcases List.mem_cons.mp hk with heq | hmem
    · subst heq
      have hrest : k ∉ rest := (List.nodup_cons.mp hnd).1
      rw [foldl_mergeStep_stable cli cfg rest _ k hrest,
        lookupRaw_mergeStep_self hacc]
    · have hn : n ≠ k := by
        intro h
        exact (List.nodup_cons.mp hnd).1 (h ▸ hmem)
      exact ih _ k hmem (List.nodup_cons.mp hnd).2
        (by rw [lookupRaw_mergeStep_ne hn]; exact hacc)

end GridConfig

/-- C1: For every settings field, resolution follows strict three-tier
priority independently per field: a non-absent CLI value wins, else a
present config-file key wins, else the built-in dataclass default is used.
Additionally, `app.py`'s `resolve_param` implements the same three tiers. -/
theorem claim1_three_tier_merge :
    (∀ (cli cfg : Dict) (n : String), n ∈ GridConfig.fieldNames →
      GridConfig.configField cli cfg n =
        match dictGet cli n with
        | some v => GridConfig._coerce_value n v
        | none =>
          match dictGet cfg n with
          | some v => GridConfig._coerce_value n v
          | none => GridConfig.fieldDefault n)
    ∧ (∀ (T : Type) (v : T) (c : Option T) (d : T), app.resolve_param (some v) c d = v)
    ∧ (∀ (T : Type) (w d : T), app.resolve_param none (some w) d = w)
    ∧ (∀ (T : Type) (d : T), app.resolve_param (T := T) none none d = d) := by
  refine ⟨?_, fun T v c d => rfl, fun T w d => rfl, fun T d => rfl⟩
  intro cli cfg n hn
  have hnd : GridConfig.fieldNames.Nodup := by decide
  have h := GridConfig.foldl_mergeStep_extract cli cfg GridConfig.fieldNames []
    n hn hnd rfl
  unfold GridConfig.configField GridConfig.from_cli_and_config
  rw [h]
  unfold GridConfig.stepVal
  cases dictGet cli n with
  | some v => rfl
  | none =>
    cases dictGet cfg n with
    | some v => rfl
    | none => rfl

/-- Witness for C1: one field set only via CLI and a different field set
only via the config file resolve from their respective sources, and an
untouched field resolves to its default. -/
theorem claim1_witness :
    GridConfig.configField [("n_cols", PyVal.vInt 3)] [("fontsize", PyVal.vInt 20)]
        "n_cols" = PyVal.vInt 3
    ∧ GridConfig.configField [("n_cols", PyVal.vInt 3)] [("fontsize", PyVal.vInt 20)]
        "fontsize" = PyVal.vInt 20
    ∧ GridConfig.configField [("n_cols", PyVal.vInt 3)] [("fontsize", PyVal.vInt 20)]
        "smiles_col" = PyVal.vStr "smiles" := by
  refine ⟨?_, ?_, ?_⟩
  · exact (claim1_three_tier_merge.1 _ _ "n_cols" (by decide)).trans (by decide)
  · exact (claim1_three_tier_merge.1 _ _ "fontsize" (by decide)).trans (by decide)
  · exact (claim1_three_tier_merge.1 _ _ "smiles_col" (by decide)).trans (by decide)

namespace converter

/-- `generate_grid_images` line 114–116: the effective chunk size.
Python `n_items_per_page if (n_items_per_page and n_items_per_page > 0)
else total_rows` — `None`, `0` and negative values all fall back to
`total_rows`. -/
def chunkSize (totalRows : Nat) (nItemsPerPage : Option Int) : Nat :=
  match nItemsPerPage with
  | some p => if 0 < p then p.toNat else totalRows
  | none => totalRows

/-- `generate_grid_images` line 117: `num_chunks = (total_rows + chunk_size
- 1) // chunk_size` (only evaluated with `total_rows > 0`, hence
`chunk_size > 0`). -/
def numChunks (totalRows cs : Nat) : Nat := (totalRows + cs - 1) / cs

/-- `generate_grid_images` lines 122–124: `chunk_df = df.iloc[start:end]`
with `start = i * chunk_size`, `end = min((i + 1) * chunk_size,
total_rows)`. -/
def pageSlice {α : Type} (df : List α) (cs i : Nat) : List α :=
  (df.drop (i * cs)).take (min ((i + 1) * cs) df.length - i * cs)

/-- `generate_grid_images` line 118: `padding_width = len(str(num_chunks))`. -/
def paddingWidth (numChunksVal : Nat) : Nat := (Nat.repr numChunksVal).length

/-- Python `f"{n:0{w}d}"`: decimal representation left-padded with zeros to
width `w`. -/
def zfill (w n : Nat) : String :=
  let s := Nat.repr n
  if s.length < w then String.mk (List.replicate (w - s.length) '0') ++ s else s

/-- Split a character list at its last `'.'`, returning the part before
and the part after; `none` when there is no dot. -/
def splitAtLastDot : List Char → Option (List Char × List Char)
  | [] => none
  | c :: rest =>
    match splitAtLastDot rest with
    | some (st, suf) => some (c :: st, suf)
    | none => if c = '.' then some ([], rest) else none

/-- `pathlib.Path(...).suffix` for a bare file name: `name[i:]` for the
last dot position `i` when `0 < i < len(name) - 1`, else empty (no dot,
leading-dot file, trailing dot). -/
def pathSuffix (name : String) : String :=
  match splitAtLastDot name.data with
  | some (st, ext) => if st.isEmpty || ext.isEmpty then "" else String.mk ('.' :: ext)
  | none => ""

/-- `pathlib.Path(...).stem` for a bare file name: the name with
`pathSuffix` removed. -/
def pathStem (name : String) : String :=
  match splitAtLastDot name.data with
  | some (st, ext) => if st.isEmpty || ext.isEmpty then name else String.mk st
  | none => name

/-- `generate_grid_images` lines 126–132: the output file name of 1-based
page `i + 1` — a zero-padded underscore suffix on the stem when there is
more than one page, the original name verbatim otherwise. -/
def pageName (outputPath : String) (numChunksVal padWidth i : Nat) : String :=
  if numChunksVal > 1 then
    pathStem outputPath ++ "_" ++ zfill padWidth (i + 1) ++ pathSuffix outputPath
  else outputPath

/-- The full list of page output names produced by `generate_grid_images`
(lines 110–132): empty for an empty dataset (early `return`), otherwise one
name per chunk. -/
def pageNames (outputPath : String) (totalRows : Nat)
    (nItemsPerPage : Option Int) : List String :=
  if totalRows = 0 then []
  else
    let cs := chunkSize totalRows nItemsPerPage
    let n := numChunks totalRows cs
    (List.range n).map (pageName outputPath n (paddingWidth n))

end converter

/-- C2: 36 rows with page size 2 produce exactly 18 pages named
`paginated_01.png` … `paginated_18.png` (1-based, zero-padded to width 2,
appended to the stem with an underscore); with page size `None` or `≤ 0`,
exactly one page whose path is the original output path verbatim. -/
theorem claim2_pagination_names :
    converter.pageNames "paginated.png" 36 (some 2) =
      ["paginated_01.png", "paginated_02.png", "paginated_03.png",
       "paginated_04.png", "paginated_05.png", "paginated_06.png",
       "paginated_07.png", "paginated_08.png", "paginated_09.png",
       "paginated_10.png", "paginated_11.png", "paginated_12.png",
       "paginated_13.png", "paginated_14.png", "paginated_15.png",
       "paginated_16.png", "paginated_17.png", "paginated_18.png"]
    ∧ converter.pageNames "paginated.png" 36 none = ["paginated.png"]
    ∧ converter.pageNames "paginated.png" 36 (some 0) = ["paginated.png"]
    ∧ converter.pageNames "paginated.png" 36 (some (-3)) = ["paginated.png"] := by
  refine ⟨?_, ?_, ?_, ?_⟩ <;> rfl

namespace converter

theorem numChunks_zero {cs : Nat} (h : 0 < cs) : numChunks 0 cs = 0 := by
  unfold numChunks
  exact Nat.div_eq_of_lt (by omega)

theorem numChunks_succ {cs len : Nat} (h : 0 < cs) (hl : 0 < len) :
    numChunks len cs = numChunks (len - cs) cs + 1 := by
  unfold numChunks
  rcases Nat.lt_or_ge cs len with hlt | hge
  · have h1 : len + cs - 1 = (len - cs + cs - 1) + cs := by omega
    rw [h1, Nat.add_div_right _ h]
  · have h0 : len - cs = 0 := by omega
    have h1 : len + cs - 1 = (len - 1) + cs := by omega
    rw [h0, h1, Nat.add_div_right _ h, Nat.div_eq_of_lt (by omega)]
    have h2 : (0 : Nat) + cs - 1 = cs - 1 := by omega
    rw [h2, Nat.div_eq_of_lt (by omega)]

theorem pageSlice_zero {α : Type} (df : List α) (cs : Nat) :
    pageSlice df cs 0 = df.take (min cs df.length) := by
  unfold pageSlice
  simp

theorem pageSlice_succ {α : Type} {df : List α} {cs : Nat} (hcs : cs ≤ df.length)
    (i : Nat) : pageSlice df cs (i + 1) = pageSlice (df.drop cs) cs i := by
  unfold pageSlice
  rw [List.drop_drop, List.length_drop]
  have e1 : (i + 1 + 1) * cs = i * cs + cs + cs := by ring
  have e2 : (i + 1) * cs = i * cs + cs := by ring
  have e3 : cs + i * cs = i * cs + cs := by ring
  rw [e1, e2, e3]
  generalize i * cs = a
  have e4 : min (a + cs + cs) df.length - (a + cs) =
      min (a + cs) (df.length - cs) - a := by omega
  rw [e4]

theorem join_pageSlices {α : Type} (cs : Nat) (h : 0 < cs) :
    ∀ (n : Nat) (df : List α), df.length ≤ n →
      ((List.range (numChunks df.length cs)).map
        (fun i => pageSlice df cs i)).flatten = df := by
  intro n
  induction n with
  | zero =>
    intro df hdf
    have hend : df = [] := List.eq_nil_of_length_eq_zero (Nat.le_zero.mp hdf)
    subst hend
    simp [numChunks_zero h]
  | succ m ih =>
    intro df hdf
    by_cases hz : df.length = 0
    · have hend : df = [] := List.eq_nil_of_length_eq_zero hz
      subst hend
      simp [numChunks_zero h]
    · have hl : 0 < df.length := Nat.pos_of_ne_zero hz
      rw [numChunks_succ h hl, List.range_succ_eq_map, List.map_cons,
        List.flatten_cons, List.map_map]
      by_cases hcs : cs ≤ df.length
      · have hmap : (List.range (numChunks (df.length - cs) cs)).map
              ((fun i => pageSlice df cs i) ∘ Nat.succ)
            = (List.range (numChunks (df.length - cs) cs)).map
              (fun i => pageSlice (df.drop cs) cs i) :=
          List.map_congr_left (fun i _ => pageSlice_succ hcs i)
        rw [hmap]
        have hih := ih (df.drop cs) (by rw [List.length_drop]; omega)
        rw [List.length_drop] at hih
        rw [hih, pageSlice_zero]
        have hmin : min cs df.length = cs := by omega
        rw [hmin]
        exact List.take_append_drop cs df
      · have h0 : df.length - cs = 0 := by omega
        rw [h0, numChunks_zero h]
        simp only [List.range_zero, List.map_nil, List.flatten_nil, List.append_nil]
        rw [pageSlice_zero]
        have hmin : min cs df.length = df.length := by omega
        rw [hmin, List.take_length]

theorem pageSlice_getElem {α : Type} (df : List α) (cs i j : Nat) :
    (pageSlice df cs i)[j]? =
      if i * cs + j < min ((i + 1) * cs) df.length
      then df[i * cs + j]? else none := by
  unfold pageSlice
  rw [List.getElem?_take, List.getElem?_drop]
  have e2 : (i + 1) * cs = i * cs + cs := by ring
  rw [e2]
  generalize i * cs = a
  have hiff : (j < min (a + cs) df.length - a) ↔ (a + j < min (a + cs) df.length) := by
    omega
  simp only [hiff]

end converter

/-- C3: for every dataset and every positive effective page size, page with
1-based index `i + 1` contains exactly the rows at positions
`[i·cs, min((i+1)·cs, total))` in original order; the concatenation of all
page row-slices in page order equals the full ordered dataset; and
distinct pages draw from disjoint row-index ranges, so no row appears in
two pages. -/
theorem claim3_partition {α : Type} (df : List α) (cs : Nat) (h : 0 < cs) :
    ((List.range (converter.numChunks df.length cs)).map
        (fun i => converter.pageSlice df cs i)).flatten = df
    ∧ (∀ i j : Nat, (converter.pageSlice df cs i)[j]? =
        if i * cs + j < min ((i + 1) * cs) df.length
        then df[i * cs + j]? else none)
    ∧ (∀ i j : Nat, i < j → min ((i + 1) * cs) df.length ≤ j * cs) :=
  ⟨converter.join_pageSlices cs h df.length df le_rfl,
   fun i j => converter.pageSlice_getElem df cs i j,
   fun i j hij => le_trans (min_le_left _ _) (Nat.mul_le_mul_right cs (by omega))⟩

/-- Witness for C3 at the concrete dataset `[10, 20, 30, 40, 50]` with
page size 2. -/
theorem claim3_witness :
    (0 < 2)
    ∧ ((List.range (converter.numChunks (List.length [10, 20, 30, 40, 50]) 2)).map
        (fun i => converter.pageSlice [10, 20, 30, 40, 50] 2 i)).flatten
      = [10, 20, 30, 40, 50] :=
  ⟨by decide, (claim3_partition [10, 20, 30, 40, 50] 2 (by decide)).1⟩

namespace converter

/-- `generate_grid_image` lines 52–56: the settings forced for imaging. -/
def force_kwargs : Dict :=
  [("template", PyVal.vStr "static"),
   ("prerender", PyVal.vBool true),
   ("useSVG", PyVal.vBool true)]

/-- Removal of a key (`dict.pop` / re-assignment); Python dict keys are
unique, so removing every binding of the key is equivalent. -/
def removeKey (d : Dict) (k : String) : Dict :=
  d.filter (fun p => !(p.1 = k))

/-- `generate_grid_image` line 59: `is_transparent = kwargs.pop("transparent",
False)` followed by the `if is_transparent:` truthiness test, plus the
popped dict. -/
def popTransparent (kwargs : Dict) : Bool × Dict :=
  (((lookupRaw kwargs "transparent").map pyTruthy).getD false,
   removeKey kwargs "transparent")

/-- `generate_grid_image` lines 64–70: reuse (or create) the
`MolDrawOptions` object, set `clearBackground = False`, store it back.
Only the `clearBackground` attribute is modelled, so the stored value is
`vMolDrawOptions false` whether or not the caller supplied options. -/
def setMolDrawOptions (kwargs : Dict) : Dict :=
  ("MolDrawOptions", PyVal.vMolDrawOptions false) :: removeKey kwargs "MolDrawOptions"

/-- Python `{**a, **b}`: on key collision `b` wins.  With first-match
lookup this is `b ++ a` (key order differs from CPython's insertion order,
which no code here observes). -/
def mergeDicts (a b : Dict) : Dict := b ++ a

/-- `generate_grid_image` lines 74–75: default `border` to `"none"` when
the key is absent (`"border" not in display_kwargs`). -/
def borderDefault (dk : Dict) : Dict :=
  if (lookupRaw dk "border").isSome then dk
  else ("border", PyVal.vStr "none") :: dk

/-- `generate_grid_image` lines 58–75: the final keyword set handed to
`mols2grid.display` — pop `transparent`, optionally install the
transparent `MolDrawOptions`, merge the forced settings over the caller's
kwargs, then default `border` to `"none"` when absent. -/
def displayKwargs (kwargs : Dict) : Dict :=
  borderDefault (mergeDicts
    (if (popTransparent kwargs).1 then setMolDrawOptions (popTransparent kwargs).2
     else (popTransparent kwargs).2)
    force_kwargs)

theorem lookupRaw_filter_none {d : Dict} {k : String} (p : String × PyVal → Bool)
    (h : lookupRaw d k = none) : lookupRaw (d.filter p) k = none := by
  induction d with
  | nil => rfl
  | cons q rest ih =>
    obtain ⟨qk, qv⟩ := q
    by_cases hk : qk = k
    · simp [lookupRaw, hk] at h
    · simp only [lookupRaw, if_neg hk] at h
      by_cases hp : p (qk, qv)
      · simp only [List.filter_cons, if_pos hp, lookupRaw, if_neg hk]
        exact ih h
      · simp only [List.filter_cons]
        rw [if_neg (by simpa using hp)]
        exact ih h

end converter

/-- C7: the keyword set passed to `mols2grid.display` always carries
`template="static"`, `prerender=True` and `useSVG=True`, whatever the
caller supplied for any of them: the forced settings are merged last and
shadow every user value. -/
theorem claim7_forced_kwargs (kwargs : Dict) :
    dictGet (converter.displayKwargs kwargs) "template" = some (PyVal.vStr "static")
    ∧ dictGet (converter.displayKwargs kwargs) "prerender" = some (PyVal.vBool true)
    ∧ dictGet (converter.displayKwargs kwargs) "useSVG" = some (PyVal.vBool true) := by
  unfold converter.displayKwargs converter.borderDefault converter.mergeDicts
  refine ⟨?_, ?_, ?_⟩ <;>
    · split <;> split <;> simp [dictGet, lookupRaw, converter.force_kwargs]

/-- C10: when the caller's keyword set carries no `border` key (no CLI and
no config-file border, so the app never adds one), the keyword set passed
to `mols2grid.display` nonetheless contains `border="none"` — the
collaborator's own border default is never consulted. -/
theorem claim10_border_default (kwargs : Dict)
    (h : lookupRaw kwargs "border" = none) :
    dictGet (converter.displayKwargs kwargs) "border"
      = some (PyVal.vStr "none") := by
  unfold converter.displayKwargs
  have h1 : lookupRaw (converter.popTransparent kwargs).2 "border" = none := by
    show lookupRaw (converter.removeKey kwargs "transparent") "border" = none
    exact converter.lookupRaw_filter_none _ h
  have h2 : lookupRaw
      (if (converter.popTransparent kwargs).1
       then converter.setMolDrawOptions (converter.popTransparent kwargs).2
       else (converter.popTransparent kwargs).2) "border" = none := by
    split
    · unfold converter.setMolDrawOptions
      simp only [lookupRaw, if_neg (by decide : ¬("MolDrawOptions" = "border"))]
      exact converter.lookupRaw_filter_none _ h1
    · exact h1
  have h3 : lookupRaw (converter.mergeDicts
      (if (converter.popTransparent kwargs).1
       then converter.setMolDrawOptions (converter.popTransparent kwargs).2
       else (converter.popTransparent kwargs).2)
      converter.force_kwargs) "border" = none := by
    unfold converter.mergeDicts
    rw [lookupRaw_append_right (by decide)]
    exact h2
  unfold converter.borderDefault
  rw [h3]
  simp [dictGet, lookupRaw]

/-- Witness for C10: a keyword set without `border` (here only `gap`)
yields `border="none"` in the display keyword set. -/
theorem claim10_witness :
    dictGet (converter.displayKwargs [("gap", PyVal.vInt 5)]) "border"
      = some (PyVal.vStr "none") :=
  claim10_border_default [("gap", PyVal.vInt 5)] (by decide)

namespace converter

/-- The arguments `grid_to_image` hands to `capture_element_screenshot`
(converter.py lines 207–212). -/
structure CaptureArgs where
  htmlFilePath : String
  outputImagePath : String
  selector : String
  omitBackground : Bool
deriving DecidableEq, Repr

/-- Observable outcome of one `grid_to_image` call: the returned value (or
propagated exception), the final file system, and the capture invocation
it made. -/
structure GridToImageResult where
  result : Except String String
  fs : String → Option String
  captureArgs : CaptureArgs

/-- `grid_to_image` (converter.py lines 178–218).  The file system is a
map from path to contents; `grid` is the renderable object, observed only
through `grid._repr_html_()` (its serialized HTML).  `tempName` is the
fresh name `tempfile.NamedTemporaryFile` picks, `captureOutcome` is
whatever `capture_element_screenshot` does (returns a path or raises), and
`unlinkOk` is whether `os.unlink` of the temp file succeeds.  With a
caller-supplied `intermediate_html_path` the HTML is written there and
left on disk; otherwise the HTML goes to the temp file, which the
`finally` block unlinks on every exit path, swallowing `OSError`. -/
def grid_to_image (gridHtml : String) (output_image_path : String)
    (intermediate_html_path : Option String) (selector : String)
    (omit_background : Bool) (fs0 : String → Option String) (tempName : String)
    (captureOutcome : Except String String) (unlinkOk : Bool) :
    GridToImageResult :=
  match intermediate_html_path with
  | some p =>
    { result := captureOutcome
      fs := fun n => if n = p then some gridHtml else fs0 n
      captureArgs :=
        { htmlFilePath := p, outputImagePath := output_image_path
          selector := selector, omitBackground := omit_background } }
  | none =>
    let fs1 : String → Option String :=
      fun n => if n = tempName then some gridHtml else fs0 n
    { result := captureOutcome
      fs := if unlinkOk then fun n => if n = tempName then none else fs1 n
            else fs1
      captureArgs :=
        { htmlFilePath := tempName, outputImagePath := output_image_path
          selector := selector, omitBackground := omit_background } }

end converter

namespace screenshot

/-- The arguments `capture_element_screenshot` passes to
`locator.screenshot` (screenshot.py line 47): only `path` is supplied;
`omit_background` is never forwarded (`none` = argument not passed, so
Playwright's default of painting the background applies). -/
structure LocatorScreenshotArgs where
  path : String
  omit_background : Option Bool
deriving DecidableEq, Repr

/-- `capture_element_screenshot` (screenshot.py lines 5–50).  `htmlExists`
is whether the input HTML file exists, `selectorCount` the number of
elements the selector matches.  Extra keyword arguments — including
`omit_background` — are absorbed by `**kwargs` and never read: the
`locator.screenshot` call receives only the output path. -/
def capture_element_screenshot (htmlExists : Bool) (selectorCount : Nat)
    (output_image_path : String) (kwargs : Dict) :
    Except String LocatorScreenshotArgs :=
  if !htmlExists then Except.error "HTML file not found"
  else if selectorCount = 0 then Except.error "Element not found"
  else Except.ok { path := output_image_path, omit_background := none }

end screenshot

/-- C9: with no caller-specified intermediate HTML path, the scoped
temporary HTML file is deleted on every exit path of the conversion —
capture success and capture exception alike — and a failed deletion is
swallowed (the capture outcome still propagates unchanged); with an
intermediate HTML path supplied, that file is left on disk holding exactly
the renderable object's serialized HTML. -/
theorem claim9_html_lifecycle (gridHtml out : String) (sel : String)
    (ob : Bool) (fs0 : String → Option String) (temp p : String)
    (cap : Except String String) (e : String) :
    (converter.grid_to_image gridHtml out none sel ob fs0 temp cap true).fs temp
      = none
    ∧ (converter.grid_to_image gridHtml out none sel ob fs0 temp
        (Except.error e) true).fs temp = none
    ∧ (converter.grid_to_image gridHtml out none sel ob fs0 temp cap true).result
      = cap
    ∧ (converter.grid_to_image gridHtml out none sel ob fs0 temp cap false).result
      = cap
    ∧ (converter.grid_to_image gridHtml out (some p) sel ob fs0 temp cap true).fs p
      = some gridHtml
    ∧ (converter.grid_to_image gridHtml out (some p) sel ob fs0 temp
        (Except.error e) true).fs p = some gridHtml
    ∧ (converter.grid_to_image gridHtml out (some p) sel ob fs0 temp cap true).result
      = cap := by
  refine ⟨?_, ?_, rfl, rfl, ?_, ?_, rfl⟩ <;> simp [converter.grid_to_image]

/-- C8: `grid_to_image` does pass the transparency flag through to the
screenshot-capture invocation, but `capture_element_screenshot` absorbs
`omit_background` into `**kwargs` and never forwards it: the
`locator.screenshot` call it makes carries no `omit_background` argument,
so the background is not omitted even when `omit_background=True` was
requested. -/
theorem claim8_omit_background_dropped :
    (∀ (gridHtml out sel temp : String) (ob : Bool)
        (fs0 : String → Option String) (interp : Option String)
        (cap : Except String String) (uok : Bool),
      (converter.grid_to_image gridHtml out interp sel ob fs0 temp
          cap uok).captureArgs.omitBackground = ob)
    ∧ screenshot.capture_element_screenshot true 1 "out.png"
        [("omit_background", PyVal.vBool true)]
      = Except.ok { path := "out.png", omit_background := none } := by
  constructor
  · intro gridHtml out sel temp ob fs0 interp cap uok
    cases interp <;> rfl
  · rfl

namespace app

/-- The inputs of one `main` invocation (app.py lines 31–64): the typer
CLI parameters (`none` = flag not supplied, except `transparent`, whose
typer default is the *value* `False`, not `None`), the parsed JSON config
file, and the observations `main` makes of the environment (file existence,
loaded CSV shape).  Output-path relocation (lines 95–107) performs no
validation and is modelled separately by `converter.pageNames`. -/
structure AppEnv where
  input_csv : Option String
  config : Option String
  configExists : Bool
  file_config : Dict
  smiles_col : Option String
  subset : Option (List String)
  sort_by : Option String
  remove_hs : Option Bool
  use_coords : Option Bool
  coord_gen : Option Bool
  border : Option String
  gap : Option Int
  fontfamily : Option String
  text_align : Option String
  n_items_per_page : Option Int
  transparent : Bool
  inputExists : Bool
  dfColumns : List String
  dfRows : Nat
deriving DecidableEq, Repr

/-- What `main` has decided by the time it enters the generation loop
(app.py lines 151–176): the resolved transparency, the keyword set built
for the grid, the effective subset, the resolved identifier column, and
how many output files the batch loop will produce. -/
structure AppOutcome where
  final_transparent : PyVal
  grid_kwargs : Dict
  final_subset : PyVal
  final_smiles_col : PyVal
  num_chunks : Nat
deriving DecidableEq, Repr

/-- app.py line 165: the chunk size of the batch loop
(`final_n_items_per_page if (final_n_items_per_page and
final_n_items_per_page > 0) else total_rows`). -/
def appChunkSize (finalNItems : PyVal) (totalRows : Nat) : Nat :=
  match finalNItems with
  | PyVal.vInt p => if 0 < p then p.toNat else totalRows
  | _ => totalRows

/-- `main` (app.py lines 64–185) up to and including the batch-size
computation, as evaluated on `env`.  Error results carry the message a
raised error would surface; validations appear in source order.  Note
what is *absent*: after the CSV is loaded there is no zero-row check and
no identifier-column check — the only use of the dataframe's columns is
the `"ccd"` subset default (lines 143–147) — and the chunk-size division
(line 168) raises `ZeroDivisionError` when `chunk_size` is 0. -/
def appRun (env : AppEnv) : Except String AppOutcome :=
  -- lines 71–76: config file loading
  if env.config.isSome && !env.configExists then
    Except.error "Error: Config file does not exist."
  else
    let fc : Dict := if env.config.isSome then env.file_config else []
    -- lines 80–88: input path resolution (required)
    let final_input :=
      resolve_param (env.input_csv.map PyVal.vStr) (dictGet fc "input_csv")
        PyVal.vNone
    if !pyTruthy final_input then
      Except.error "Error: input_csv must be provided via argument or config file."
    else if !env.inputExists then
      Except.error "Error: Input file does not exist."
    else
      -- lines 117–136: parameter resolution (only the fields the loop uses)
      let final_smiles_col :=
        resolve_param (env.smiles_col.map PyVal.vStr) (dictGet fc "smiles_col")
          (PyVal.vStr "smiles")
      let final_subset0 :=
        resolve_param (env.subset.map PyVal.vStrList) (dictGet fc "subset")
          PyVal.vNone
      let final_sort_by :=
        resolve_param (env.sort_by.map PyVal.vStr) (dictGet fc "sort_by") PyVal.vNone
      let final_remove_hs :=
        resolve_param (env.remove_hs.map PyVal.vBool) (dictGet fc "remove_hs")
          PyVal.vNone
      let final_use_coords :=
        resolve_param (env.use_coords.map PyVal.vBool) (dictGet fc "use_coords")
          PyVal.vNone
      let final_coord_gen :=
        resolve_param (env.coord_gen.map PyVal.vBool) (dictGet fc "coord_gen")
          PyVal.vNone
      let final_border :=
        resolve_param (env.border.map PyVal.vStr) (dictGet fc "border") PyVal.vNone
      let final_gap :=
        resolve_param (env.gap.map PyVal.vInt) (dictGet fc "gap") PyVal.vNone
      let final_fontfamily :=
        resolve_param (env.fontfamily.map PyVal.vStr) (dictGet fc "fontfamily")
          PyVal.vNone
      let final_text_align :=
        resolve_param (env.text_align.map PyVal.vStr) (dictGet fc "text_align")
          PyVal.vNone
      let final_n_items :=
        resolve_param (env.n_items_per_page.map PyVal.vInt)
          (dictGet fc "n_items_per_page") PyVal.vNone
      -- line 136: the CLI value is the *boolean* `transparent`, never None,
      -- so `resolve_param`'s first tier always fires
      let final_transparent :=
        resolve_param (some (PyVal.vBool env.transparent)) (dictGet fc "transparent")
          (PyVal.vBool false)
      -- lines 143–147: subset default via the "ccd" column
      let final_subset :=
        if final_subset0 = PyVal.vNone then
          if env.dfColumns.contains "ccd" then PyVal.vStrList ["ccd"]
          else PyVal.vStrList []
        else final_subset0
      -- lines 152–161: grid kwargs, added in source order when not None
      let gk : Dict := []
      let gk := if !(final_sort_by = PyVal.vNone) then gk ++ [("sort_by", final_sort_by)] else gk
      let gk := if !(final_remove_hs = PyVal.vNone) then gk ++ [("removeHs", final_remove_hs)] else gk
      let gk := if !(final_use_coords = PyVal.vNone) then gk ++ [("use_coords", final_use_coords)] else gk
      let gk := if !(final_coord_gen = PyVal.vNone) then gk ++ [("coordGen", final_coord_gen)] else gk
      let gk := if !(final_border = PyVal.vNone) then gk ++ [("border", final_border)] else gk
      let gk := if !(final_gap = PyVal.vNone) then gk ++ [("gap", final_gap)] else gk
      let gk := if !(final_fontfamily = PyVal.vNone) then gk ++ [("fontfamily", final_fontfamily)] else gk
      let gk := if !(final_text_align = PyVal.vNone) then gk ++ [("text_align", final_text_align)] else gk
      let gk := if pyTruthy final_transparent then gk ++ [("transparent", PyVal.vBool true)] else gk
      -- lines 164–170: batch computation
      let total := env.dfRows
      let cs := appChunkSize final_n_items total
      if cs = 0 then
        Except.error "ZeroDivisionError: integer division or modulo by zero"
      else
        let nc := (total + cs - 1) / cs
        let nc := if nc = 0 then 1 else nc
        Except.ok
          { final_transparent := final_transparent
            grid_kwargs := gk
            final_subset := final_subset
            final_smiles_col := final_smiles_col
            num_chunks := nc }

/-- A baseline invocation: a CLI run `m2g-image input.csv` with an
existing input file and no config file; the CSV parses with the given
columns and row count. -/
def baseEnv (cols : List String) (rows : Nat) : AppEnv :=
  { input_csv := some "input.csv"
    config := none
    configExists := false
    file_config := []
    smiles_col := none
    subset := none
    sort_by := none
    remove_hs := none
    use_coords := none
    coord_gen := none
    border := none
    gap := none
    fontfamily := none
    text_align := none
    n_items_per_page := none
    transparent := false
    inputExists := true
    dfColumns := cols
    dfRows := rows }

end app

/-- C4 (claim FALSE on the code — `app.py` contradicts its own test
`test_app_transparent_from_config` and the spec's precedence invariant):
with `transparent=true` only in the JSON config file and the CLI flag not
supplied, `main` still resolves transparency to `False` and the keyword
set built for the renderer carries no `transparent` key.  The typer
option's default is the value `False`, not `None`, so `resolve_param`'s
CLI tier always fires (app.py lines 60 and 136).  The `GridConfig` merge
in `config.py`, by contrast, does let the config value through. -/
theorem claim4_transparent_config_lost :
    (app.appRun { app.baseEnv ["smiles", "ccd"] 3 with
        config := some "config.json"
        configExists := true
        file_config := [("transparent", PyVal.vBool true)] }).map
      app.AppOutcome.final_transparent = Except.ok (PyVal.vBool false)
    ∧ (app.appRun { app.baseEnv ["smiles", "ccd"] 3 with
        config := some "config.json"
        configExists := true
        file_config := [("transparent", PyVal.vBool true)] }).map
      (fun o => lookupRaw o.grid_kwargs "transparent") = Except.ok none
    ∧ GridConfig.configField [] [("transparent", PyVal.vBool true)] "transparent"
      = PyVal.vBool true := by
  refine ⟨rfl, rfl, ?_⟩
  decide

/-- C5 (claim FALSE on the code — `app.py` contradicts its own test
`test_app_empty_csv`): a successfully parsed, zero-row dataset is not a
clean early exit.  With no `--per-page`, `chunk_size` becomes
`total_rows = 0` and line 168's division raises `ZeroDivisionError`
(non-zero exit, no warning); with `--per-page 2` the loop is forced to one
chunk (`if num_chunks == 0: num_chunks = 1`, line 170) and one output file
is attempted for the empty slice — never the claimed warning-and-zero-files
success. -/
theorem claim5_empty_dataset_crashes :
    app.appRun (app.baseEnv ["smiles", "ccd"] 0)
      = Except.error "ZeroDivisionError: integer division or modulo by zero"
    ∧ (app.appRun { app.baseEnv ["smiles", "ccd"] 0 with
        n_items_per_page := some 2 }).map app.AppOutcome.num_chunks
      = Except.ok 1 := by
  exact ⟨rfl, rfl⟩

/-- C6 (claim FALSE on the code — `app.py` contradicts its own test
`test_app_missing_smiles_column`): on a non-empty dataset whose columns
are `id,name` (no `smiles`), `main` performs no identifier-column
validation at all: it resolves `smiles_col = "smiles"`, consults the
columns only for the `"ccd"` subset default, and proceeds to the rendering
collaborator — no exit-1 diagnostic naming the column and listing the
"available columns" is ever produced by the app. -/
theorem claim6_no_column_validation :
    app.appRun (app.baseEnv ["id", "name"] 2)
      = Except.ok
        { final_transparent := PyVal.vBool false
          grid_kwargs := []
          final_subset := PyVal.vStrList []
          final_smiles_col := PyVal.vStr "smiles"
          num_chunks := 1 }
    ∧ (app.baseEnv ["id", "name"] 2).dfColumns.contains "smiles" = false := by
  exact ⟨rfl, rfl⟩
